import Mathlib

/-!
Verification development for `telethon/telegram_bare_client.py`
(`TelegramBareClient`): a shallow embedding of the invocation engine
(`__call__` / `_invoke`), the DC directory (`_get_dc`), reconnection
(`_reconnect`), the exported-session / CDN client cache
(`_get_exported_client` / `_get_cdn_client`) and the `connect`
exception handling, together with theorems about their behaviour.

Modelling conventions:
- Requests are identified by their class name plus the `content_related`
  flag; payloads and wire serialization are external collaborators and
  are not modelled.
- Network interaction of one round-trip attempt (the send/receive block
  of `_invoke`, lines 514-524) is resolved by a script of `NetOutcome`s
  held in the state: either the envelopes come back filled (rpc_error /
  result slots) or one of the exceptions the handlers at lines 526-554
  catch was raised.
- Collaborator calls that the directory / exported-client code performs
  through the engine (`GetConfigRequest`, `ExportAuthorizationRequest`,
  `ImportAuthorizationRequest`, child `connect`) are recorded as effects
  in an effect trace and answered by a fixed environment `Env`; the
  claims about that code concern which of these calls happen, not their
  internals.
- Python exceptions are values of `PyExc`; a function returns
  `Except PyExc α × ClientState` (state mutations made before an
  exception persist, as in Python).
- Recursion in the source (`_get_dc` CDN retry, `_invoke` migration
  recursion, `connect` retry) is fuel-bounded; `PyExc.fuelExhausted` is
  a model artifact that no theorem exercises.
-/

/-- One invocable TL request, identified by its class name and the
`content_related` flag checked at `__call__` lines 450-452. -/
structure Request where
  name : String
  contentRelated : Bool
deriving DecidableEq, Repr

/-- RPC errors relevant to `_invoke`s dispatch (lines 569-585): the three
migration errors carry the target DC, flood errors carry the wait in
seconds; everything else propagates to the caller. -/
inductive RpcErr where
  | phoneMigrate (newDc : Nat)
  | networkMigrate (newDc : Nat)
  | userMigrate (newDc : Nat)
  | serverError
  | rpcCallFail
  | floodWait (seconds : Nat)
  | floodTestPhoneWait (seconds : Nat)
  | otherRpc (name : String)
deriving DecidableEq, Repr

/-- Python exceptions surfacing from the modelled code. -/
inductive PyExc where
  | typeError (msg : String)
  | valueError
  | attributeError
  | stopIteration
  | indexError
  | runtimeError (msg : String)
  | rpc (e : RpcErr)
  | fuelExhausted
deriving DecidableEq, Repr

/-- Exceptions the send/receive block of `_invoke` can raise, matching the
handlers at lines 526-554. -/
inductive RecvExc where
  | brokenAuthKey
  | typeNotFound
  | timeoutErr
  | connectionReset
deriving DecidableEq, Repr

/-- What the network does on one send/receive cycle: either every envelope
comes back with its `rpc_error` / `result` slots (missing positions stay
unset, as for a rejected container), or an exception is raised. -/
inductive NetOutcome where
  | filled (slots : List (Option RpcErr × Option Nat))
  | raised (e : RecvExc)
deriving DecidableEq, Repr

/-- A request envelope after a receive cycle: the request plus its
`rpc_error` and `result` slots. -/
structure Envelope where
  req : Request
  rpcError : Option RpcErr
  result : Option Nat
deriving DecidableEq, Repr

/-- One DC option of the server configuration (`dc.id`, `dc.ip_address`,
`dc.port`, `dc.ipv6`, `dc.cdn`), as filtered by `_get_dc` line 329-332. -/
structure Dc where
  id : Nat
  ipAddress : String
  port : Nat
  ipv6 : Bool
  cdn : Bool
deriving DecidableEq, Repr

/-- The process-wide server configuration cache
(`TelegramBareClient._config`), holding the DC options. -/
structure Config where
  dcOptions : List Dc
deriving DecidableEq, Repr

/-- The session fields the modelled code touches: DC binding, auth key and
the flood-sleep threshold. -/
structure Session where
  dcId : Nat
  serverAddress : String
  port : Nat
  authKey : Option Nat
  floodSleepThreshold : Nat
deriving DecidableEq, Repr

/-- Observable collaborator effects, recorded in order. `resolveDc` marks
entry to `_get_dc`; the `...Call` effects are server calls issued through
the engine; transport effects mark `connect` / `disconnect` on senders. -/
inductive Eff where
  | resolveDc (dcId : Nat) (cdn : Bool)
  | getConfigCall
  | getCdnConfigCall
  | bootstrapConfigCall
  | exportAuthCall (dcId : Nat)
  | importAuthCall
  | childConnect (dcId : Nat)
  | doAuthentication
  | sendReqs (names : List String)
  | asyncSleep (seconds : Nat)
  | sessionSave
  | connectTransport
  | disconnectTransport
  | reconnectTransient
deriving DecidableEq, Repr

/-- Per-instance client state: the session, the `_first_request`,
`_user_connected`, `_idling` and reconnect-lock booleans, the authorized
tri-state, the config cache, the `_exported_sessions` map, the pending
network script and the accumulated effect trace. -/
structure ClientState where
  session : Session
  firstRequest : Bool
  userConnected : Bool
  idling : Bool
  reconnectLocked : Bool
  authorized : Option Bool
  config : Option Config
  exportedSessions : List (Nat × Session)
  script : List NetOutcome
  effs : List Eff
deriving DecidableEq, Repr

/-- A child `TelegramBareClient` as returned by `_get_exported_client` /
`_get_cdn_client`: its session and its `_authorized` flag. -/
structure ChildClient where
  session : Session
  authorized : Option Bool
deriving DecidableEq, Repr

/-- Fixed environment answering collaborator calls: the IPv6 preference,
the configuration a `GetConfigRequest` returns, and the auth key produced
by `authenticator.do_authentication`. -/
structure Env where
  useIpv6 : Bool
  freshConfig : Config
  authKeyVal : Nat
deriving DecidableEq, Repr

/-- The `requests` parameter of `_invoke` as Python binds it: normally a
sequence, but the star-unpacked recursive call at line 573 can bind a
single TLObject to it. -/
inductive ReqParam where
  | obj (r : Request)
  | seq (rs : List Request)
deriving DecidableEq, Repr

/-- The `request` argument of `__call__`: a single TLObject (not
list-like) or a list of them, distinguished at line 446. -/
inductive ReqInput where
  | one (r : Request)
  | many (rs : List Request)
deriving DecidableEq, Repr

/-- The value `__call__` returns on success: `result[0]` for a single
request, the result list otherwise (line 472). -/
inductive CallRet where
  | one (v : Nat)
  | many (vs : List Nat)
deriving DecidableEq, Repr

/-- Lookup in the `_exported_sessions` dict (`dict.get`). -/
def lookupSession (m : List (Nat × Session)) (dcId : Nat) : Option Session :=
  match m with
  | [] => none
  | (k, s) :: rest => if k = dcId then some s else lookupSession rest dcId

/-- The generator filter of `_get_dc` lines 329-332: first DC option with
the wanted id whose `ipv6` and `cdn` flags match. -/
def findDc (cfg : Config) (useIpv6 : Bool) (dcId : Nat) (cdn : Bool) : Option Dc :=
  cfg.dcOptions.find? (fun dc => dc.id == dcId && dc.ipv6 == useIpv6 && dc.cdn == cdn)

/-- The loop `for x in requests: x.rpc_error = None` at lines 493-494:
iterating a bare TLObject (bound by the star-unpacked call) raises
TypeError; a sequence yields its elements (the clearing itself is
implicit, envelopes are rebuilt on every receive). -/
def iterParam : ReqParam → Except PyExc (List Request)
  | .obj _ => .error (.typeError "object is not iterable")
  | .seq rs => .ok rs

/-- Python argument binding of `self._invoke(call_receive, retry, *requests)`
(line 573) against `_invoke(self, call_receive, retry, requests,
ordered=False)`: one element binds `requests` to the bare object; two
elements additionally bind `ordered` to the second (a TLObject, truthy);
any other arity is a TypeError. -/
def starBind (rs : List Request) : Except PyExc (ReqParam × Bool) :=
  match rs with
  | [r] => .ok (.obj r, false)
  | [r, _] => .ok (.obj r, true)
  | _ => .error (.typeError "invalid number of positional arguments")

/-- The `_wrap_init_connection` envelope (lines 239-250): the query is
wrapped in `InvokeWithLayerRequest(InitConnectionRequest(...))`; at this
granularity only the outer class name is visible. -/
def wrapInitConnection (q : Request) : Request :=
  { name := "InvokeWithLayerRequest", contentRelated := q.contentRelated }

/-- Build envelopes from the sent requests and the slots the network
returned; positions the network did not fill stay unset. -/
def fillEnvs : List Request → List (Option RpcErr × Option Nat) → List Envelope
  | [], _ => []
  | r :: rs, [] => { req := r, rpcError := none, result := none } :: fillEnvs rs []
  | r :: rs, s :: ss => { req := r, rpcError := s.1, result := s.2 } :: fillEnvs rs ss

/-- The generator `next(x.rpc_error for x in requests if x.rpc_error)` at
line 560: first envelope error in submission order. -/
def firstRpcError : List Envelope → Option RpcErr
  | [] => none
  | e :: es =>
    match e.rpcError with
    | some err => some err
    | none => firstRpcError es

/-- The check `any(x.result is None for x in requests)` at line 562. -/
def anyResultNone (envs : List Envelope) : Bool :=
  envs.any (fun e => e.result.isNone)

/-- The comprehension `[x.result for x in requests]` at line 567, guarded
by `anyResultNone` so every slot is set. -/
def extractResults (envs : List Envelope) : List Nat :=
  envs.map (fun e => e.result.getD 0)

/-- The content-related guard of `__call__` lines 450-452
(`all(isinstance(x, TLObject) and x.content_related for x in request)`). -/
def contentCheck (rs : List Request) : Bool :=
  rs.all (fun x => x.contentRelated)

/-- A single quote character, used by Python repr of string lists. -/
def sQuote : String :=
  String.singleton (Char.ofNat 39)

/-- Python repr of a list of strings, as `str.format` renders
`[type(x).__name__ for x in request]` at line 462. -/
def pyListRepr (names : List String) : String :=
  "[" ++ String.intercalate ", " (names.map (fun n => sQuote ++ n ++ sQuote)) ++ "]"

/-- Pop the next scripted network outcome; an exhausted script leaves every
envelope unfilled. -/
def popOutcome (st : ClientState) : NetOutcome × ClientState :=
  match st.script with
  | [] => (.filled [], st)
  | o :: rest => (o, { st with script := rest })

/-- The DC directory `_get_dc(dc_id, cdn=False)`, lines 318-339. The entry
is marked with a `resolveDc` effect. The config cache is populated on
first use (lines 320-321, a `GetConfigRequest` through the engine). For a
CDN query, line 326 evaluates `await (self(GetCdnConfigRequest())).public_keys`:
attribute access binds tighter than `await`, so `.public_keys` is read off
the un-awaited coroutine object and raises AttributeError before anything
is sent and before the option search runs. A non-CDN miss re-raises
StopIteration (lines 333-335); the CDN miss branch (lines 337-339,
refresh config and recurse) is kept for fidelity although the
AttributeError makes it unreachable. -/
def getDc (env : Env) : Nat → Nat → Bool → ClientState → Except PyExc Dc × ClientState
  | fuel, dcId, cdn, st =>
    let st := { st with effs := st.effs ++ [Eff.resolveDc dcId cdn] }
    let st :=
      if st.config.isNone then
        { st with config := some env.freshConfig, effs := st.effs ++ [Eff.getConfigCall] }
      else st
    let attempt : Except PyExc Dc :=
      if cdn then
        .error .attributeError
      else
        match findDc (st.config.getD { dcOptions := [] }) env.useIpv6 dcId cdn with
        | some dc => .ok dc
        | none => .error .stopIteration
    match attempt with
    | .ok dc => (.ok dc, st)
    | .error .stopIteration =>
      if !cdn then
        (.error .stopIteration, st)
      else
        match fuel with
        | 0 => (.error .fuelExhausted, st)
        | f + 1 =>
          let st := { st with config := some env.freshConfig, effs := st.effs ++ [Eff.getConfigCall] }
          getDc env f dcId cdn st
    | .error e => (.error e, st)

/-- `_reconnect` (lines 271-305). Without a target DC the transport-level
reconnection (lines 280-291) is a collaborator concern, recorded as a
`reconnectTransient` effect. With a target DC: resolve it (line 296),
rewrite the session binding and clear the auth key (lines 299-302, keys
are DC-specific), persist (line 303), disconnect (line 304: clears
`_user_connected`, resets `_first_request`), then connect (line 305,
abstracted to a transport effect that succeeds). -/
def reconnect (env : Env) (fuel : Nat) (newDc : Option Nat) (st : ClientState) :
    Except PyExc Bool × ClientState :=
  match newDc with
  | none => (.ok true, { st with effs := st.effs ++ [Eff.reconnectTransient] })
  | some dcId =>
    match getDc env fuel dcId false st with
    | (.error e, st) => (.error e, st)
    | (.ok dc, st) =>
      let st := { st with
        session := { st.session with
          dcId := dc.id, serverAddress := dc.ipAddress, port := dc.port, authKey := none },
        effs := st.effs ++ [Eff.sessionSave] }
      let st := { st with userConnected := false, firstRequest := true,
                          effs := st.effs ++ [Eff.disconnectTransport] }
      (.ok true, { st with userConnected := true, effs := st.effs ++ [Eff.connectTransport] })

/-- One round-trip attempt, `_invoke` (lines 490-585). Control flow:
clear stale errors (the iteration guard, lines 493-494); generate an auth
key if absent (lines 496-500, sets `_first_request`); wrap a single
request in the init envelope, or for a batch run the bootstrap config
call first (lines 502-512; the nested `self(...)` engine call of the
batch path is abstracted to a `bootstrapConfigCall` effect that refreshes
the config — no claim depends on that path); send (line 514); wait or
receive inline (lines 516-524: `asyncio.wait` on an empty envelope set
raises ValueError, an inline receive over no envelopes is a vacuous
`all`); handle receive exceptions (lines 526-554: broken key clears the
auth key, unknown type sets `_first_request`, timeout falls through, a
connection reset returns no result when user-connected and is a
RuntimeError otherwise); clear `_first_request` (line 557); then inspect
envelopes (lines 559-585): raise the first error, dispatch migration
errors to a reconnect followed by the star-unpacked recursive call of
line 573, absorb server errors, sleep-or-raise on flood waits, return no
result if any result is missing, else return the results. -/
def bareInvoke (env : Env) (fuel : Nat) (cr : Bool) (p : ReqParam) (ordered : Bool)
    (st : ClientState) : Except PyExc (Option (List Nat)) × ClientState :=
  match iterParam p with
  | .error e => (.error e, st)
  | .ok rs0 =>
    let st :=
      if st.session.authKey.isNone then
        { st with firstRequest := true,
                  session := { st.session with authKey := some env.authKeyVal },
                  effs := st.effs ++ [Eff.doAuthentication] }
      else st
    let wrapStep : List Request × ClientState :=
      if st.firstRequest then
        if rs0.length == 1 then
          (rs0.map wrapInitConnection, st)
        else
          (rs0, { st with config := some env.freshConfig,
                          effs := st.effs ++ [Eff.bootstrapConfigCall] })
      else (rs0, st)
    match wrapStep with
    | (rs, st) =>
      let st := { st with effs := st.effs ++ [Eff.sendReqs (rs.map (fun x => x.name))] }
      let step : Except PyExc (Option (List Envelope)) × ClientState :=
        if rs.isEmpty then
          if cr then (.ok (some []), st) else (.error .valueError, st)
        else
          match popOutcome st with
          | (.filled slots, st) => (.ok (some (fillEnvs rs slots)), st)
          | (.raised .brokenAuthKey, st) =>
            (.ok (some (fillEnvs rs [])),
             { st with session := { st.session with authKey := none } })
          | (.raised .typeNotFound, st) =>
            (.ok (some (fillEnvs rs [])), { st with firstRequest := true })
          | (.raised .timeoutErr, st) => (.ok (some (fillEnvs rs [])), st)
          | (.raised .connectionReset, st) =>
            if st.userConnected then
              (.ok none, { st with effs := st.effs ++ [Eff.disconnectTransport] })
            else
              (.error (.runtimeError "Tried to invoke without .connect()"), st)
      match step with
      | (.error e, st) => (.error e, st)
      | (.ok none, st) => (.ok none, st)
      | (.ok (some envs), st) =>
        let st := { st with firstRequest := false }
        match firstRpcError envs with
        | none =>
          if anyResultNone envs then (.ok none, st)
          else (.ok (some (extractResults envs)), st)
        | some err =>
          match err with
          | .phoneMigrate dc | .networkMigrate dc | .userMigrate dc =>
            (match reconnect env fuel (some dc) st with
             | (.error e, st) => (.error e, st)
             | (.ok _, st) =>
               match starBind rs with
               | .error e => (.error e, st)
               | .ok (p2, ord2) =>
                 match fuel with
                 | 0 => (.error .fuelExhausted, st)
                 | f + 1 => bareInvoke env f cr p2 ord2 st)
          | .serverError => (.ok none, st)
          | .rpcCallFail => (.ok none, st)
          | .floodWait s =>
            if s > st.session.floodSleepThreshold ||| 0 then (.error (.rpc err), st)
            else (.ok none, { st with effs := st.effs ++ [Eff.asyncSleep s] })
          | .floodTestPhoneWait s =>
            if s > st.session.floodSleepThreshold ||| 0 then (.error (.rpc err), st)
            else (.ok none, { st with effs := st.effs ++ [Eff.asyncSleep s] })
          | e => (.error (.rpc e), st)

/-- The retry loop of `__call__` (lines 468-485): up to `n` attempts; a
non-`None` result is unwrapped (`result[0]` for a single request, line
472); otherwise sleep one second and, unless a reconnection is already in
flight, take the lock and reconnect (lines 478-481) before the next
attempt; an exhausted budget raises the RuntimeError of lines 483-485. -/
def retryLoop (env : Env) (fuel : Nat) (cr single : Bool) (which : String)
    (rs : List Request) (ordered : Bool) : Nat → ClientState → Except PyExc CallRet × ClientState
  | 0, st =>
    (.error (.runtimeError ("Number of retries reached 0 for " ++ which ++ ".")), st)
  | n + 1, st =>
    match bareInvoke env fuel cr (.seq rs) ordered st with
    | (.error e, st) => (.error e, st)
    | (.ok (some results), st) =>
      if single then
        match results with
        | v :: _ => (.ok (.one v), st)
        | [] => (.error .indexError, st)
      else (.ok (.many results), st)
    | (.ok none, st) =>
      let st := { st with effs := st.effs ++ [Eff.asyncSleep 1] }
      let st :=
        if !st.reconnectLocked then
          let st := { st with reconnectLocked := true }
          match reconnect env fuel none st with
          | (_, st) => { st with reconnectLocked := false }
        else st
      retryLoop env fuel cr single which rs ordered n st

/-- A placeholder request for the unreachable `headD` default. -/
def defaultRequest : Request :=
  { name := "", contentRelated := true }

/-- `__call__` (lines 421-485): normalize the single-vs-list argument
(line 446-448), reject non-content-related envelopes (lines 450-452; the
per-request `resolve` is a no-op for the bare client), build the logging
name `which` (lines 458-462), compute `call_receive` from the idling flag
and the reconnection lock (lines 465-466), then run the retry loop. -/
def bareCall (env : Env) (fuel : Nat) (input : ReqInput) (retries : Nat) (ordered : Bool)
    (st : ClientState) : Except PyExc CallRet × ClientState :=
  let single : Bool :=
    match input with
    | .one _ => true
    | .many _ => false
  let reqs : List Request :=
    match input with
    | .one r => [r]
    | .many rs => rs
  if !contentCheck reqs then
    (.error (.typeError "You can only invoke requests, not types!"), st)
  else
    let which :=
      if single then (reqs.headD defaultRequest).name
      else toString reqs.length ++ " requests (" ++ pyListRepr (reqs.map (fun x => x.name)) ++ ")"
    let cr := !st.idling || st.reconnectLocked
    retryLoop env fuel cr single which reqs ordered retries st

/-- Session cloning plus `set_dc` as used for exported and CDN sessions
(lines 369-370, 396-397) and by `_reconnect` (lines 299-302): the session
is rebound to the target DC without an auth key. Modelled from the spec
for the clone half: the session store is external to the sources, and the
spec states that auth keys are DC-specific, so a session bound to a new
DC carries no key until the key exchange recreates one. -/
def boundSession (s : Session) (dc : Dc) : Session :=
  { s with dcId := dc.id, serverAddress := dc.ipAddress, port := dc.port, authKey := none }

/-- `_get_exported_client` (lines 341-389): on a cache hit the stored
session is reused and `export_auth` stays `None` (lines 351-353); on a
miss the DC is resolved (non-CDN), the authorization exported (line 362),
the session cloned, rebound and cached (lines 369-371). Either way a
child client is built and connected without update sync (lines 374-380);
only a fresh export is imported (lines 381-384); the child is marked
authorized unconditionally (line 388). -/
def getExportedClient (env : Env) (fuel : Nat) (dcId : Nat) (st : ClientState) :
    Except PyExc ChildClient × ClientState :=
  match lookupSession st.exportedSessions dcId with
  | some session =>
    let st := { st with effs := st.effs ++ [Eff.childConnect session.dcId] }
    (.ok { session := session, authorized := some true }, st)
  | none =>
    match getDc env fuel dcId false st with
    | (.error e, st) => (.error e, st)
    | (.ok dc, st) =>
      let st := { st with effs := st.effs ++ [Eff.exportAuthCall dcId] }
      let session := boundSession st.session dc
      let st := { st with exportedSessions := (dcId, session) :: st.exportedSessions }
      let st := { st with effs := st.effs ++ [Eff.childConnect session.dcId, Eff.importAuthCall] }
      (.ok { session := session, authorized := some true }, st)

/-- `_get_cdn_client` (lines 391-415): same cache, keyed by the redirect
DC id; on a miss the DC is resolved with the CDN flag (line 395), the
session cloned, rebound and cached (lines 396-398); the child is
connected without update sync and inherits the parent authorization
as-is (line 414). -/
def getCdnClient (env : Env) (fuel : Nat) (redirectDcId : Nat) (st : ClientState) :
    Except PyExc ChildClient × ClientState :=
  match lookupSession st.exportedSessions redirectDcId with
  | some session =>
    let st := { st with effs := st.effs ++ [Eff.childConnect session.dcId] }
    (.ok { session := session, authorized := st.authorized }, st)
  | none =>
    match getDc env fuel redirectDcId true st with
    | (.error e, st) => (.error e, st)
    | (.ok dc, st) =>
      let session := boundSession st.session dc
      let st := { st with exportedSessions := (redirectDcId, session) :: st.exportedSessions }
      let st := { st with effs := st.effs ++ [Eff.childConnect session.dcId] }
      (.ok { session := session, authorized := st.authorized }, st)

/-- What one `connect()` body does up to its exception handlers: the
transport either connects (authorization assertions aside) or raises one
of the three handled exception classes (lines 214-234). -/
inductive ConnectEvent where
  | success
  | typeNotFound
  | authKeyError
  | rpcOrConnError
deriving DecidableEq, Repr

/-- Transport effects of the `connect` model. -/
inductive ConnEff where
  | transportConnect
  | transportDisconnect
  | saveSession
deriving DecidableEq, Repr

/-- State for the `connect` model: the stored auth key, the
user-connected flag, the script of transport outcomes and the effect
trace. -/
structure ConnState where
  authKey : Option Nat
  userConnected : Bool
  script : List ConnectEvent
  effs : List ConnEff
deriving DecidableEq, Repr

/-- The value a Python `async def` returns: a proper value, or — when a
coroutine-producing call is returned without `await` — the un-awaited
coroutine object itself. -/
inductive PyRet where
  | val (b : Bool)
  | coroutine
deriving DecidableEq, Repr

/-- `connect()` (lines 177-234). A successful transport connect marks the
user connected and returns True (lines 194-212; update sync is a
collaborator concern). `TypeNotFoundError`: disconnect and retry with
`return await self.connect(...)` (lines 214-219). `AuthKeyError`:
disconnect, clear the stored key, persist — then line 228 is
`return self.connect(_sync_updates=_sync_updates)` with no `await`, so
the retry coroutine is built but never run and the coroutine object is
what the caller receives. `RPCError` / `ConnectionError`: disconnect and
return False (lines 230-234). -/
def connectFlow : Nat → ConnState → PyRet × ConnState
  | fuel, st =>
    let (ev, st) :=
      match st.script with
      | [] => (ConnectEvent.success, st)
      | e :: rest => (e, { st with script := rest })
    let st := { st with effs := st.effs ++ [ConnEff.transportConnect] }
    match ev with
    | .success => (.val true, { st with userConnected := true })
    | .typeNotFound =>
      let st := { st with userConnected := false, effs := st.effs ++ [ConnEff.transportDisconnect] }
      match fuel with
      | 0 => (.val false, st)
      | f + 1 => connectFlow f st
    | .authKeyError =>
      let st := { st with userConnected := false, effs := st.effs ++ [ConnEff.transportDisconnect] }
      let st := { st with authKey := none, effs := st.effs ++ [ConnEff.saveSession] }
      (.coroutine, st)
    | .rpcOrConnError =>
      (.val false, { st with userConnected := false, effs := st.effs ++ [ConnEff.transportDisconnect] })

/-- Environment used by the theorems: IPv4, a fresh config with no
options, a fixed generated key. -/
def env0 : Env :=
  { useIpv6 := false, freshConfig := { dcOptions := [] }, authKeyVal := 99 }

/-- The non-CDN option for DC 2 used by the concrete states. -/
def dc2 : Dc :=
  { id := 2, ipAddress := "10.0.0.2", port := 443, ipv6 := false, cdn := false }

/-- A connected, authorized, non-idling client bound to DC 1 with an auth
key, a populated config knowing DC 2, an empty exported-session cache,
flood threshold `t` and network script `script`. -/
def baseState (t : Nat) (script : List NetOutcome) : ClientState :=
  { session := { dcId := 1, serverAddress := "10.0.0.1", port := 443,
                 authKey := some 7, floodSleepThreshold := t }
    firstRequest := false
    userConnected := true
    idling := false
    reconnectLocked := false
    authorized := some true
    config := some { dcOptions := [dc2] }
    exportedSessions := []
    script := script
    effs := [] }

/-- A ping request, used as the concrete request of several witnesses. -/
def reqPing : Request :=
  { name := "PingRequest", contentRelated := true }

/-- A second concrete request for batch witnesses. -/
def reqState : Request :=
  { name := "GetStateRequest", contentRelated := true }

/-- Right identity of bitwise or, mirroring the `| 0` of line 581. -/
theorem lorZeroRight (n : Nat) : n ||| 0 = n := by simp

/-- C1 (code_bug evidence): on a migration error the code does reconnect to
the indicated DC — the session is rebound to DC 2 and the auth key cleared,
and the old connection is torn down and reopened — but the recursive retry
of line 573 star-unpacks the request list, so the lone envelope becomes the
`requests` parameter of the inner `_invoke`, whose first loop iterates it
and raises TypeError to the caller instead of transparently returning the
original result. -/
theorem c1_thm :
    (bareCall env0 3 (.one reqPing) 5 false
        (baseState 10 [.filled [(some (.phoneMigrate 2), none)]])).1 =
      .error (.typeError "object is not iterable")
  ∧ ((bareCall env0 3 (.one reqPing) 5 false
        (baseState 10 [.filled [(some (.phoneMigrate 2), none)]])).2).session.dcId = 2
  ∧ ((bareCall env0 3 (.one reqPing) 5 false
        (baseState 10 [.filled [(some (.phoneMigrate 2), none)]])).2).session.authKey = none
  ∧ Eff.disconnectTransport ∈ ((bareCall env0 3 (.one reqPing) 5 false
        (baseState 10 [.filled [(some (.phoneMigrate 2), none)]])).2).effs
  ∧ Eff.connectTransport ∈ ((bareCall env0 3 (.one reqPing) 5 false
        (baseState 10 [.filled [(some (.phoneMigrate 2), none)]])).2).effs := by
  refine ⟨rfl, rfl, rfl, ?_, ?_⟩ <;> decide

/-- C4 (code_bug evidence): an attempt whose receive raises the
unknown-type decode error aborts yielding no result, but the
first-request-pending flag is false when the attempt returns: the handler
at line 534 sets it, and the unconditional clear at line 557 immediately
undoes that before the attempt ends, contradicting the handler intent. -/
theorem c4_thm :
    (bareInvoke env0 1 true (.seq [reqPing]) false (baseState 0 [.raised .typeNotFound])).1 =
      .ok none
  ∧ ((bareInvoke env0 1 true (.seq [reqPing]) false
        (baseState 0 [.raised .typeNotFound])).2).firstRequest = false :=
  ⟨rfl, rfl⟩

def connSt3 : ConnState :=
  { authKey := some 9, userConnected := true, script := [.authKeyError, .success], effs := [] }

/-- C3 (code_bug evidence): a `connect()` hitting the broken/duplicated
auth-key error disconnects, clears the stored key and persists the session,
but line 228 returns `self.connect(...)` without `await`: the caller
receives the un-awaited coroutine object instead of a boolean, the retry
never runs (its scripted outcome stays unconsumed) and only one transport
connect is ever attempted. -/
theorem c3_thm :
    (connectFlow 3 connSt3).1 = .coroutine
  ∧ ((connectFlow 3 connSt3).2).authKey = none
  ∧ ConnEff.saveSession ∈ ((connectFlow 3 connSt3).2).effs
  ∧ ((connectFlow 3 connSt3).2).script = [.success]
  ∧ ((connectFlow 3 connSt3).2).effs.count ConnEff.transportConnect = 1 := by
  refine ⟨rfl, rfl, ?_, rfl, ?_⟩ <;> decide

/-- C10 counterexample: invoking an empty list while the background
receive task is idling (so the call waits on completion signals instead of
receiving inline) raises ValueError — `asyncio.wait` on the empty signal
set — rather than returning the empty list. -/
theorem c10_cx :
    (bareCall env0 1 (.many []) 5 false { baseState 0 [] with idling := true }).1 =
      .error .valueError :=
  rfl

/-- C10 amended: an empty request list passes the content-related check
vacuously, and when the attempt performs inline receive (idling not set) it
reaches envelope inspection, where no envelope carries an error or missing
result, and the empty list is returned to the caller. -/
theorem c10_thm :
    contentCheck [] = true
  ∧ (bareCall env0 1 (.many []) 5 false (baseState 0 [])).1 = .ok (.many []) :=
  ⟨rfl, rfl⟩

/-- C2 counterexample: a CDN-flagged resolution for an id absent from the
cached config raises AttributeError at the CDN-key refresh step — the
effect trace gains only the `resolveDc` marker: no CDN-config call is
issued, the config is not re-fetched, no retry happens and no hard miss
error is ever reached, contrary to the claimed refresh-then-retry-once
behaviour. -/
theorem c2_cx :
    getDc env0 3 5 true (baseState 0 []) =
      (.error .attributeError, { baseState 0 [] with effs := [Eff.resolveDc 5 true] }) :=
  rfl

/-- C2 amended: with the config cache populated, a lookup miss for a
non-CDN query raises the hard error without refreshing the Config again,
and any CDN-flagged query raises AttributeError before the CDN-config
call, before any Config re-fetch and before any retry (line 326 reads
`.public_keys` off the un-awaited coroutine). -/
theorem c2_thm (fuel dcId : Nat) (st : ClientState) (cfg : Config)
    (hc : st.config = some cfg) :
    (findDc cfg env0.useIpv6 dcId false = none →
      getDc env0 fuel dcId false st =
        (.error .stopIteration, { st with effs := st.effs ++ [Eff.resolveDc dcId false] }))
  ∧ getDc env0 fuel dcId true st =
      (.error .attributeError, { st with effs := st.effs ++ [Eff.resolveDc dcId true] }) := by
  constructor
  · intro hm
    rw [getDc.eq_def]
    simp [hc, hm]
  · rw [getDc.eq_def]
    simp [hc]

/-- C5: a flood-wait error whose server-specified wait is at most the
session flood-sleep threshold makes the attempt sleep exactly that many
seconds and yield no result, while a wait exceeding the threshold
propagates the error immediately with no sleep recorded. -/
theorem c5_thm (s t : Nat) (r : Request) :
    (s ≤ t →
      bareInvoke env0 1 true (.seq [r]) false
          (baseState t [.filled [(some (.floodWait s), none)]]) =
        (.ok none, { baseState t [] with effs := [Eff.sendReqs [r.name], Eff.asyncSleep s] }))
  ∧ (t < s →
      bareInvoke env0 1 true (.seq [r]) false
          (baseState t [.filled [(some (.floodWait s), none)]]) =
        (.error (.rpc (.floodWait s)), { baseState t [] with effs := [Eff.sendReqs [r.name]] })) := by
  constructor
  · intro h
    simp [bareInvoke, iterParam, baseState, popOutcome, fillEnvs, firstRpcError,
          lorZeroRight, Nat.not_lt.mpr h]
  · intro h
    simp [bareInvoke, iterParam, baseState, popOutcome, fillEnvs, firstRpcError,
          lorZeroRight, h]

/-- Envelopes filled from all-successful slots carry no error, miss no
result, and extract to the given results in submission order. -/
theorem fillEnvs_success (rs : List Request) (vs : List Nat) (h : rs.length = vs.length) :
    firstRpcError (fillEnvs rs (vs.map (fun v => ((none : Option RpcErr), some v)))) = none
  ∧ anyResultNone (fillEnvs rs (vs.map (fun v => ((none : Option RpcErr), some v)))) = false
  ∧ extractResults (fillEnvs rs (vs.map (fun v => ((none : Option RpcErr), some v)))) = vs := by
  induction rs generalizing vs with
  | nil =>
    cases vs with
    | nil => simp [fillEnvs, firstRpcError, anyResultNone, extractResults]
    | cons v vs => simp at h
  | cons r rs ih =>
    cases vs with
    | nil => simp at h
    | cons v vs =>
      have h' : rs.length = vs.length := by simpa using h
      obtain ⟨h1, h2, h3⟩ := ih vs h'
      simp [fillEnvs, firstRpcError, anyResultNone, extractResults] at h1 h2 h3 ⊢
      exact ⟨h1, h2, h3⟩

/-- Envelopes left unfilled (exception before any completion) have no
error, and a nonempty batch has a missing result. -/
theorem fillEnvs_unset (rs : List Request) :
    firstRpcError (fillEnvs rs []) = none
  ∧ (rs ≠ [] → anyResultNone (fillEnvs rs []) = true) := by
  induction rs with
  | nil => simp [fillEnvs, firstRpcError]
  | cons r rs ih =>
    obtain ⟨h1, _⟩ := ih
    simp [fillEnvs, firstRpcError, anyResultNone, h1]

/-- A round-trip attempt over a nonempty batch whose receive completes
with every result present returns those results, consumes one scripted
outcome, records the send, and clears the first-request flag. -/
theorem bareInvoke_filled_ok (env : Env) (fuel : Nat) (cr ordered : Bool)
    (a : Request) (as : List Request) (vs : List Nat) (st : ClientState)
    (rest : List NetOutcome)
    (hk : st.session.authKey.isNone = false) (hf : st.firstRequest = false)
    (hs : st.script = .filled (vs.map (fun v => ((none : Option RpcErr), some v))) :: rest)
    (hlen : (a :: as).length = vs.length) :
    bareInvoke env fuel cr (.seq (a :: as)) ordered st =
      (.ok (some vs),
       { st with effs := st.effs ++ [Eff.sendReqs ((a :: as).map (fun x => x.name))],
                 script := rest, firstRequest := false }) := by
  obtain ⟨h1, h2, h3⟩ := fillEnvs_success (a :: as) vs hlen
  rw [bareInvoke.eq_def]
  simp [iterParam, hk, hf, popOutcome, hs, h1, h2, h3]

/-- A round-trip attempt over a nonempty batch whose receive times out
yields no result, consumes one scripted outcome, records the send, and
clears the first-request flag. -/
theorem bareInvoke_timeout (env : Env) (fuel : Nat) (cr ordered : Bool)
    (a : Request) (as : List Request) (st : ClientState) (rest : List NetOutcome)
    (hk : st.session.authKey.isNone = false) (hf : st.firstRequest = false)
    (hs : st.script = .raised .timeoutErr :: rest) :
    bareInvoke env fuel cr (.seq (a :: as)) ordered st =
      (.ok none,
       { st with effs := st.effs ++ [Eff.sendReqs ((a :: as).map (fun x => x.name))],
                 script := rest, firstRequest := false }) := by
  obtain ⟨h1, h2⟩ := fillEnvs_unset (a :: as)
  rw [bareInvoke.eq_def]
  simp [iterParam, hk, hf, popOutcome, hs, h1, h2]

/-- If every attempt of the retry loop times out, the loop exhausts its
budget and raises the retry-exhaustion RuntimeError naming `which`. -/
theorem retryLoop_exhausted (env : Env) (fuel : Nat) (cr single : Bool) (which : String)
    (a : Request) (as : List Request) (ordered : Bool) (n : Nat) :
    ∀ (st : ClientState), st.session.authKey.isNone = false → st.firstRequest = false →
      st.script = List.replicate n (.raised .timeoutErr) →
      (retryLoop env fuel cr single which (a :: as) ordered n st).1 =
        .error (.runtimeError ("Number of retries reached 0 for " ++ which ++ ".")) := by
  induction n with
  | zero =>
    intro st hk hf hs
    simp [retryLoop]
  | succ n ih =>
    intro st hk hf hs
    rw [List.replicate_succ] at hs
    simp only [retryLoop]
    rw [bareInvoke_timeout env fuel cr ordered a as st _ hk hf hs]
    by_cases hL : st.reconnectLocked <;>
      simp only [hL, reconnect, Bool.not_true, Bool.not_false, if_true, if_false] <;>
      exact ih _ (by simp [hk]) (by simp) (by simp)

/-- C6: a single successful request returns its unwrapped result, not a
one-element collection, and a nonempty batch of requests that all succeed
returns exactly as many results, in submission order. -/
theorem c6_thm (r : Request) (v : Nat) (rs : List Request) (vs : List Nat)
    (hr : r.contentRelated = true) (hrs : ∀ x ∈ rs, x.contentRelated = true)
    (hlen : rs.length = vs.length) (hne : rs ≠ []) :
    bareCall env0 1 (.one r) 5 false (baseState 0 [.filled [(none, some v)]]) =
      (.ok (.one v), { baseState 0 [] with effs := [Eff.sendReqs [r.name]] })
  ∧ bareCall env0 1 (.many rs) 5 false
      (baseState 0 [.filled (vs.map (fun v => (none, some v)))]) =
      (.ok (.many vs),
       { baseState 0 [] with effs := [Eff.sendReqs (rs.map (fun x => x.name))] }) := by
  constructor
  · have h1 := bareInvoke_filled_ok env0 1 true false r [] [v]
      (baseState 0 [.filled [(none, some v)]]) [] rfl rfl rfl rfl
    simp [baseState] at h1
    simp [bareCall, contentCheck, hr, retryLoop, baseState, h1]
  · obtain ⟨a, as, rfl⟩ : ∃ a as, rs = a :: as := by
      cases rs with
      | nil => exact absurd rfl hne
      | cons a as => exact ⟨a, as, rfl⟩
    have hcc : contentCheck (a :: as) = true := by
      simp [contentCheck, List.all_eq_true]
      exact ⟨hrs a (by simp), fun x hx => hrs x (by simp [hx])⟩
    have h1 := bareInvoke_filled_ok env0 1 true false a as vs
      (baseState 0 [.filled (vs.map (fun v => (none, some v)))]) [] rfl rfl rfl hlen
    simp [baseState] at h1
    simp [bareCall, hcc, retryLoop, baseState, h1]

/-- C7: when every one of the `retries` attempts yields no result, invoke
raises the retry-exhaustion RuntimeError, naming the request type for a
single request and the count plus request types for a batch. -/
theorem c7_thm (retries : Nat) (r : Request) (rs : List Request)
    (hr : r.contentRelated = true) (hrs : ∀ x ∈ rs, x.contentRelated = true)
    (hne : rs ≠ []) :
    (bareCall env0 1 (.one r) retries false
        (baseState 0 (List.replicate retries (.raised .timeoutErr)))).1 =
      .error (.runtimeError ("Number of retries reached 0 for " ++ r.name ++ "."))
  ∧ (bareCall env0 1 (.many rs) retries false
        (baseState 0 (List.replicate retries (.raised .timeoutErr)))).1 =
      .error (.runtimeError ("Number of retries reached 0 for " ++
        (toString rs.length ++ " requests (" ++ pyListRepr (rs.map (fun x => x.name)) ++ ")")
        ++ ".")) := by
  constructor
  · have h1 := retryLoop_exhausted env0 1 true true r.name r [] false retries
      (baseState 0 (List.replicate retries (.raised .timeoutErr))) rfl rfl rfl
    simp [bareCall, contentCheck, hr, baseState] at h1 ⊢
    exact h1
  · obtain ⟨a, as, rfl⟩ : ∃ a as, rs = a :: as := by
      cases rs with
      | nil => exact absurd rfl hne
      | cons a as => exact ⟨a, as, rfl⟩
    have hcc : contentCheck (a :: as) = true := by
      simp [contentCheck, List.all_eq_true]
      exact ⟨hrs a (by simp), fun x hx => hrs x (by simp [hx])⟩
    have h1 := retryLoop_exhausted env0 1 true false
      (toString (a :: as).length ++ " requests (" ++ pyListRepr ((a :: as).map (fun x => x.name)) ++ ")")
      a as false retries
      (baseState 0 (List.replicate retries (.raised .timeoutErr))) rfl rfl rfl
    simp [baseState] at h1
    simp [bareCall, hcc, baseState]
    exact h1

/-- C8: the first `_get_exported_client` call for a DC resolves the DC,
performs exactly one authorization export, imports it into the connected
child and caches the rebound session; a second call for the same DC reuses
the cached session, issues no export and no import, and still returns a
connected child bound to that DC. -/
theorem c8_thm (st : ClientState) (dcId : Nat) (cfg : Config) (dc : Dc)
    (h0 : lookupSession st.exportedSessions dcId = none)
    (hc : st.config = some cfg)
    (hf : findDc cfg env0.useIpv6 dcId false = some dc) :
    getExportedClient env0 1 dcId st =
      (.ok { session := boundSession st.session dc, authorized := some true },
       { st with
          exportedSessions := (dcId, boundSession st.session dc) :: st.exportedSessions,
          effs := st.effs ++ [Eff.resolveDc dcId false, Eff.exportAuthCall dcId,
                              Eff.childConnect (boundSession st.session dc).dcId,
                              Eff.importAuthCall] })
  ∧ getExportedClient env0 1 dcId ((getExportedClient env0 1 dcId st).2) =
      (.ok { session := boundSession st.session dc, authorized := some true },
       { (getExportedClient env0 1 dcId st).2 with
          effs := ((getExportedClient env0 1 dcId st).2).effs ++
            [Eff.childConnect (boundSession st.session dc).dcId] }) := by
  have main : getExportedClient env0 1 dcId st =
      (.ok { session := boundSession st.session dc, authorized := some true },
       { st with
          exportedSessions := (dcId, boundSession st.session dc) :: st.exportedSessions,
          effs := st.effs ++ [Eff.resolveDc dcId false, Eff.exportAuthCall dcId,
                              Eff.childConnect (boundSession st.session dc).dcId,
                              Eff.importAuthCall] }) := by
    rw [getExportedClient]
    rw [h0, getDc.eq_def]
    simp [hc, hf]
  refine ⟨main, ?_⟩
  rw [main]
  rw [getExportedClient]
  simp [lookupSession]

/-- C9: `_get_exported_client` and `_get_cdn_client` share the one
per-instance `_exported_sessions` map: any cached session for a DC id is
reused by `_get_cdn_client` without resolving the DC with the CDN flag and
by `_get_exported_client` without an authorization export, and a session
stored by `_get_exported_client` is found in the map that
`_get_cdn_client` consults for the same DC id. -/
theorem c9_thm :
    (∀ (st : ClientState) (dcId : Nat) (s : Session),
      lookupSession st.exportedSessions dcId = some s →
        getCdnClient env0 1 dcId st =
          (.ok { session := s, authorized := st.authorized },
           { st with effs := st.effs ++ [Eff.childConnect s.dcId] })
      ∧ getExportedClient env0 1 dcId st =
          (.ok { session := s, authorized := some true },
           { st with effs := st.effs ++ [Eff.childConnect s.dcId] }))
  ∧ (∀ (st : ClientState) (dcId : Nat) (cfg : Config) (dc : Dc),
      lookupSession st.exportedSessions dcId = none →
      st.config = some cfg →
      findDc cfg env0.useIpv6 dcId false = some dc →
        lookupSession ((getExportedClient env0 1 dcId st).2).exportedSessions dcId =
          some (boundSession st.session dc)) := by
  constructor
  · intro st dcId s h
    constructor
    · rw [getCdnClient, h]
    · rw [getExportedClient, h]
  · intro st dcId cfg dc h0 hc hf
    rw [getExportedClient]
    rw [h0, getDc.eq_def]
    simp [hc, hf, lookupSession]

/-- C2 witness: the amended statement at DC id 5 against the base state. -/
theorem c2_witness :
    findDc { dcOptions := [dc2] } env0.useIpv6 5 false = none
  ∧ getDc env0 1 5 false (baseState 0 []) =
      (.error .stopIteration,
       { baseState 0 [] with effs := (baseState 0 []).effs ++ [Eff.resolveDc 5 false] })
  ∧ getDc env0 1 5 true (baseState 0 []) =
      (.error .attributeError,
       { baseState 0 [] with effs := (baseState 0 []).effs ++ [Eff.resolveDc 5 true] }) :=
  ⟨by decide,
   (c2_thm 1 5 (baseState 0 []) { dcOptions := [dc2] } rfl).1 (by decide),
   (c2_thm 1 5 (baseState 0 []) { dcOptions := [dc2] } rfl).2⟩

/-- C5 witness: wait 3 against threshold 10, and wait 10 against threshold 3. -/
theorem c5_witness :
    (3 ≤ 10 ∧
      bareInvoke env0 1 true (.seq [reqPing]) false
          (baseState 10 [.filled [(some (.floodWait 3), none)]]) =
        (.ok none,
         { baseState 10 [] with effs := [Eff.sendReqs [reqPing.name], Eff.asyncSleep 3] }))
  ∧ (3 < 10 ∧
      bareInvoke env0 1 true (.seq [reqPing]) false
          (baseState 3 [.filled [(some (.floodWait 10), none)]]) =
        (.error (.rpc (.floodWait 10)),
         { baseState 3 [] with effs := [Eff.sendReqs [reqPing.name]] })) :=
  ⟨⟨by decide, (c5_thm 3 10 reqPing).1 (by decide)⟩,
   ⟨by decide, (c5_thm 10 3 reqPing).2 (by decide)⟩⟩

/-- C6 witness: one ping returning 4, and a two-request batch returning 4 and 5. -/
theorem c6_witness :
    bareCall env0 1 (.one reqPing) 5 false (baseState 0 [.filled [(none, some 4)]]) =
      (.ok (.one 4), { baseState 0 [] with effs := [Eff.sendReqs [reqPing.name]] })
  ∧ bareCall env0 1 (.many [reqPing, reqState]) 5 false
      (baseState 0 [.filled ([4, 5].map (fun v => (none, some v)))]) =
      (.ok (.many [4, 5]),
       { baseState 0 [] with
          effs := [Eff.sendReqs ([reqPing, reqState].map (fun x => x.name))] }) :=
  ⟨(c6_thm reqPing 4 [reqPing, reqState] [4, 5] rfl (by decide) rfl (by decide)).1,
   (c6_thm reqPing 4 [reqPing, reqState] [4, 5] rfl (by decide) rfl (by decide)).2⟩

/-- C7 witness: two timed-out attempts for a single ping and for a two-request batch. -/
theorem c7_witness :
    (bareCall env0 1 (.one reqPing) 2 false
        (baseState 0 (List.replicate 2 (.raised .timeoutErr)))).1 =
      .error (.runtimeError ("Number of retries reached 0 for " ++ reqPing.name ++ "."))
  ∧ (bareCall env0 1 (.many [reqPing, reqState]) 2 false
        (baseState 0 (List.replicate 2 (.raised .timeoutErr)))).1 =
      .error (.runtimeError ("Number of retries reached 0 for " ++
        (toString ([reqPing, reqState] : List Request).length ++ " requests (" ++
          pyListRepr ([reqPing, reqState].map (fun x => x.name)) ++ ")") ++ ".")) :=
  ⟨(c7_thm 2 reqPing [reqPing, reqState] rfl (by decide) (by decide)).1,
   (c7_thm 2 reqPing [reqPing, reqState] rfl (by decide) (by decide)).2⟩

/-- C8 witness: two exported-client calls for DC 2 from the base state. -/
theorem c8_witness :
    getExportedClient env0 1 2 (baseState 0 []) =
      (.ok { session := boundSession (baseState 0 []).session dc2, authorized := some true },
       { baseState 0 [] with
          exportedSessions :=
            (2, boundSession (baseState 0 []).session dc2) :: (baseState 0 []).exportedSessions,
          effs := (baseState 0 []).effs ++
            [Eff.resolveDc 2 false, Eff.exportAuthCall 2,
             Eff.childConnect (boundSession (baseState 0 []).session dc2).dcId,
             Eff.importAuthCall] })
  ∧ getExportedClient env0 1 2 ((getExportedClient env0 1 2 (baseState 0 [])).2) =
      (.ok { session := boundSession (baseState 0 []).session dc2, authorized := some true },
       { (getExportedClient env0 1 2 (baseState 0 [])).2 with
          effs := ((getExportedClient env0 1 2 (baseState 0 [])).2).effs ++
            [Eff.childConnect (boundSession (baseState 0 []).session dc2).dcId] }) :=
  ⟨(c8_thm (baseState 0 []) 2 { dcOptions := [dc2] } dc2 rfl rfl (by decide)).1,
   (c8_thm (baseState 0 []) 2 { dcOptions := [dc2] } dc2 rfl rfl (by decide)).2⟩

/-- A cached exported session bound to DC 9, used by the C9 witness. -/
def sessW : Session :=
  { dcId := 9, serverAddress := "10.0.0.9", port := 443, authKey := none,
    floodSleepThreshold := 0 }

/-- A client state whose exported-session cache holds DC 9, used by the
C9 witness. -/
def stW : ClientState :=
  { baseState 0 [] with exportedSessions := [(9, sessW)] }

/-- C9 witness: cache hits for DC 9 and the store made by an exported-client call for DC 2. -/
theorem c9_witness :
    (getCdnClient env0 1 9 stW =
        (.ok { session := sessW, authorized := stW.authorized },
         { stW with effs := stW.effs ++ [Eff.childConnect sessW.dcId] })
      ∧ getExportedClient env0 1 9 stW =
        (.ok { session := sessW, authorized := some true },
         { stW with effs := stW.effs ++ [Eff.childConnect sessW.dcId] }))
  ∧ lookupSession ((getExportedClient env0 1 2 (baseState 0 [])).2).exportedSessions 2 =
      some (boundSession (baseState 0 []).session dc2) :=
  ⟨c9_thm.1 stW 9 sessW (by decide),
   c9_thm.2 (baseState 0 []) 2 { dcOptions := [dc2] } dc2 rfl rfl (by decide)⟩
